import Mathlib

/-!
Shallow embedding of the journal-classification core of the repository
(file src/streamlit_app.py): the quartile-to-tier mapping, the journal
classifier, and the dataset loader that backfills the classification
column, together with proofs of the specified properties.

Raw cell values coming from the tabular source are modelled as
Option String: none stands for Python None / a missing value, some s for
a string value (the source applies str() before matching, so a string
model is faithful for every value the matching can distinguish).
-/

namespace SaudeUece

/-- Python str.strip(): removes whitespace from both ends of a string. -/
def pyStrip (s : String) : String :=
  ⟨((s.data.dropWhile Char.isWhitespace).reverse.dropWhile Char.isWhitespace).reverse⟩

/-- Python str.upper(): upper-cases every character of a string. -/
def pyUpper (s : String) : String :=
  ⟨s.data.map Char.toUpper⟩

/-- Embedding of map_quartil_to_level (src/streamlit_app.py lines 8-24):
returns None for a null input, otherwise trims, upper-cases and matches
Q1/Q2/Q3/Q4 to MB/B/R/F, and returns None for anything else. -/
def map_quartil_to_level : Option String → Option String
  | none => none
  | some q =>
    let s := pyUpper (pyStrip q)
    if s = "Q1" then some "MB"
    else if s = "Q2" then some "B"
    else if s = "Q3" then some "R"
    else if s = "Q4" then some "F"
    else none

/-- The fixed priority order iterated by classify_journal (line 37). -/
def ordem : List String := ["MB", "B", "R", "F"]

/-- The loop body of classify_journal (lines 37-42): first level of the
priority order matched by either argument, else the sentinel. -/
def classify_levels (jcr_level sjr_level : Option String) : String :=
  (ordem.find? fun lvl => jcr_level == some lvl || sjr_level == some lvl).getD
    "SEM_CLASSIFICACAO_JCR_SJR"

/-- Embedding of classify_journal (src/streamlit_app.py lines 26-42). -/
def classify_journal (jcr_quartil sjr_quartil : Option String) : String :=
  classify_levels (map_quartil_to_level jcr_quartil) (map_quartil_to_level sjr_quartil)

/-- A row of the tabular dataset: an ordered list of cells, each a column
name paired with a value (none = missing/null cell). -/
structure Row where
  cells : List (String × Option String)
deriving DecidableEq

/-- Embedding of pandas row.get(key): the value of the first cell whose
column name is the key, and None when the key is absent (the default). -/
def Row.get (r : Row) (key : String) : Option String :=
  (r.cells.find? fun cell => cell.fst == key).bind Prod.snd

/-- The in-memory table: a column list and rows. -/
structure DataFrame where
  columns : List String
  rows : List Row
deriving DecidableEq

/-- A well-formed table: every row has exactly the table's columns as its
cell keys, in order (what pandas guarantees for a parsed sheet). -/
def DataFrame.WF (df : DataFrame) : Prop :=
  ∀ r ∈ df.rows, r.cells.map Prod.fst = df.columns

instance (df : DataFrame) : Decidable df.WF := by
  unfold DataFrame.WF
  infer_instance

/-- The backfill applied to one row by load_data (lines 57-63): appends a
Classificação cell computed by classify_journal from the row's
Quartil_JCR and SJR_Quartil fields. -/
def computeRow (r : Row) : Row :=
  ⟨r.cells ++ [("Classificação",
      some (classify_journal (r.get "Quartil_JCR") (r.get "SJR_Quartil")))]⟩

/-- Embedding of load_data (src/streamlit_app.py lines 45-65) after the
external read_excel step: if the Classificação column exists the table is
returned unchanged, otherwise the column is computed for every row. -/
def load_data (df : DataFrame) : DataFrame :=
  if "Classificação" ∈ df.columns then df
  else ⟨df.columns ++ ["Classificação"], df.rows.map computeRow⟩

/-- Modelled from the spec's invariant wording only (for comparison with
the code): rank of a tier in the MB > B > R > F order. -/
def tierRank : String → Nat
  | "MB" => 0
  | "B" => 1
  | "R" => 2
  | "F" => 3
  | _ => 4

/-- Modelled from the spec's invariant wording only (for comparison with
the code): the best of the two independently implied tiers, and the
sentinel when both are absent. -/
def bestTier : Option String → Option String → String
  | none, none => "SEM_CLASSIFICACAO_JCR_SJR"
  | some a, none => a
  | none, some b => b
  | some a, some b => if tierRank a ≤ tierRank b then a else b

/-- A concrete table with neither quartile columns nor Classificação. -/
def dfSemColunas : DataFrame :=
  ⟨["Titulo"], [⟨[("Titulo", some "Revista Saude")]⟩]⟩

/-- A concrete table with quartile columns and no Classificação column. -/
def dfQuartis : DataFrame :=
  ⟨["Titulo", "Quartil_JCR", "SJR_Quartil"],
   [⟨[("Titulo", some "Revista A"), ("Quartil_JCR", some "Q3"),
      ("SJR_Quartil", some "Q1")]⟩,
    ⟨[("Titulo", some "Revista B"), ("Quartil_JCR", none),
      ("SJR_Quartil", some "-")]⟩]⟩

/-- A concrete table with quartile columns, no Classificação, mixed case. -/
def dfQuartis2 : DataFrame :=
  ⟨["Quartil_JCR", "SJR_Quartil"],
   [⟨[("Quartil_JCR", some "q1"), ("SJR_Quartil", some " Q4 ")]⟩,
    ⟨[("Quartil_JCR", some "N/A"), ("SJR_Quartil", none)]⟩]⟩

/-- A concrete table with title and ISSN columns only, two rows. -/
def dfTituloIssn : DataFrame :=
  ⟨["Titulo", "ISSN"],
   [⟨[("Titulo", some "Revista C"), ("ISSN", some "1234-5678")]⟩,
    ⟨[("Titulo", some "Revista D"), ("ISSN", none)]⟩]⟩

/-- A concrete table whose stored Classificação disagrees with the
classification the quartile columns would give. -/
def dfClassificado : DataFrame :=
  ⟨["Quartil_JCR", "SJR_Quartil", "Classificação"],
   [⟨[("Quartil_JCR", some "Q4"), ("SJR_Quartil", some "Q4"),
      ("Classificação", some "MB")]⟩]⟩

/-- map_quartil_to_level takes only five values. -/
lemma map_range (q : Option String) :
    map_quartil_to_level q = none ∨ map_quartil_to_level q = some "MB" ∨
    map_quartil_to_level q = some "B" ∨ map_quartil_to_level q = some "R" ∨
    map_quartil_to_level q = some "F" := by
  cases q with
  | none => exact Or.inl rfl
  | some s =>
    simp only [map_quartil_to_level]
    split_ifs <;> simp

/-- A key absent from the cell keys is not found. -/
lemma find?_key_none (k : String) (cells : List (String × Option String))
    (h : k ∉ cells.map Prod.fst) :
    (cells.find? fun cell => cell.fst == k) = none := by
  rw [List.find?_eq_none]
  intro x hx
  simp only [beq_iff_eq]
  intro he
  exact h (he ▸ List.mem_map_of_mem Prod.fst hx)

/-- Looking up a key absent from a row yields None, as row.get does. -/
lemma Row.get_eq_none (r : Row) (k : String)
    (h : k ∉ r.cells.map Prod.fst) : r.get k = none := by
  unfold Row.get
  rw [find?_key_none k r.cells h]
  rfl

/-- Looking up the appended key in an extended row yields the appended
value when the key was absent from the original cells. -/
lemma Row.get_append_self (cells : List (String × Option String)) (k : String)
    (v : Option String) (h : k ∉ cells.map Prod.fst) :
    Row.get ⟨cells ++ [(k, v)]⟩ k = v := by
  unfold Row.get
  rw [List.find?_append, find?_key_none k cells h, Option.none_or,
    List.find?_cons_of_pos _ (by simp)]
  rfl

/-- Looking up any other key in an extended row is unchanged. -/
lemma Row.get_append_ne (cells : List (String × Option String)) (k c : String)
    (v : Option String) (h : c ≠ k) :
    Row.get ⟨cells ++ [(k, v)]⟩ c = Row.get ⟨cells⟩ c := by
  unfold Row.get
  rw [List.find?_append]
  have hnone : (List.find? (fun cell => cell.fst == c) [(k, v)]) = none := by
    simp [Ne.symm h]
  rw [hnone, Option.or_none]

/-- On a table lacking the Classificação column, load_data appends that
column and computes each row with computeRow. -/
lemma load_data_of_not_mem (df : DataFrame)
    (hc : "Classificação" ∉ df.columns) :
    load_data df = ⟨df.columns ++ ["Classificação"], df.rows.map computeRow⟩ := by
  simp [load_data, hc]

/-- classify_journal takes only the five tier tokens as values. -/
lemma classify_mem (jcr sjr : Option String) :
    classify_journal jcr sjr ∈
      (["MB", "B", "R", "F", "SEM_CLASSIFICACAO_JCR_SJR"] : List String) := by
  have ha := map_range jcr
  have hb := map_range sjr
  simp only [classify_journal]
  rcases ha with h | h | h | h | h <;> rcases hb with h2 | h2 | h2 | h2 | h2 <;>
    rw [h, h2] <;> decide

/-- C1: classify_journal returns the best (per the MB, B, R, F priority
order) of the two tiers independently implied by its arguments through
map_quartil_to_level, and it returns the sentinel
SEM_CLASSIFICACAO_JCR_SJR exactly when both arguments map to no tier. -/
theorem classify_journal_is_best (jcr sjr : Option String) :
    classify_journal jcr sjr
      = bestTier (map_quartil_to_level jcr) (map_quartil_to_level sjr) ∧
    (classify_journal jcr sjr = "SEM_CLASSIFICACAO_JCR_SJR" ↔
      map_quartil_to_level jcr = none ∧ map_quartil_to_level sjr = none) := by
  have ha := map_range jcr
  have hb := map_range sjr
  simp only [classify_journal]
  rcases ha with h | h | h | h | h <;> rcases hb with h2 | h2 | h2 | h2 | h2 <;>
    rw [h, h2] <;> exact ⟨by decide, by decide⟩

/-- C2: map_quartil_to_level returns None on a null input; on a string it
returns MB, B, R, F exactly when trimming and upper-casing yields Q1, Q2,
Q3, Q4 respectively, and None exactly otherwise; in particular the empty
string and the tokens -, N/A and Q5 yield None, while any case or
whitespace variant of Q1..Q4 yields its tier. -/
theorem map_quartil_contract :
    map_quartil_to_level none = none ∧
    (∀ s : String,
      (map_quartil_to_level (some s) = some "MB" ↔ pyUpper (pyStrip s) = "Q1") ∧
      (map_quartil_to_level (some s) = some "B" ↔ pyUpper (pyStrip s) = "Q2") ∧
      (map_quartil_to_level (some s) = some "R" ↔ pyUpper (pyStrip s) = "Q3") ∧
      (map_quartil_to_level (some s) = some "F" ↔ pyUpper (pyStrip s) = "Q4") ∧
      (map_quartil_to_level (some s) = none ↔
        pyUpper (pyStrip s) ≠ "Q1" ∧ pyUpper (pyStrip s) ≠ "Q2" ∧
        pyUpper (pyStrip s) ≠ "Q3" ∧ pyUpper (pyStrip s) ≠ "Q4")) ∧
    map_quartil_to_level (some "") = none ∧
    map_quartil_to_level (some "-") = none ∧
    map_quartil_to_level (some "N/A") = none ∧
    map_quartil_to_level (some "Q5") = none ∧
    map_quartil_to_level (some " q1 ") = some "MB" ∧
    map_quartil_to_level (some "q2") = some "B" ∧
    map_quartil_to_level (some " Q3") = some "R" ∧
    map_quartil_to_level (some "q4 ") = some "F" := by
  refine ⟨rfl, ?_, by decide, by decide, by decide, by decide,
    by decide, by decide, by decide, by decide⟩
  intro s
  simp only [map_quartil_to_level]
  split_ifs with h1 h2 h3 h4 <;> simp_all

/-- C7: classify_journal is commutative in its two raw arguments. -/
theorem classify_journal_comm (a b : Option String) :
    classify_journal a b = classify_journal b a := by
  have ha := map_range a
  have hb := map_range b
  simp only [classify_journal]
  rcases ha with h | h | h | h | h <;> rcases hb with h2 | h2 | h2 | h2 | h2 <;>
    rw [h, h2] <;> decide

/-- C8: on equal arguments classify_journal returns the tier mapped by
map_quartil_to_level when there is one, and the sentinel when the input
is unrecognized. -/
theorem classify_journal_diag (q : Option String) :
    classify_journal q q
      = (map_quartil_to_level q).getD "SEM_CLASSIFICACAO_JCR_SJR" := by
  have h := map_range q
  simp only [classify_journal]
  rcases h with h | h | h | h | h <;> rw [h] <;> decide

/-- C9: classify_journal and map_quartil_to_level are total: on every
pair of raw inputs, null and malformed included, classify_journal yields
one of the five tokens and map_quartil_to_level one of its five values,
and the result is a deterministic function of the two inputs alone. -/
theorem classify_total_deterministic :
    (∀ jcr sjr : Option String,
      classify_journal jcr sjr ∈
        (["MB", "B", "R", "F", "SEM_CLASSIFICACAO_JCR_SJR"] : List String)) ∧
    (∀ q : Option String,
      map_quartil_to_level q ∈
        ([none, some "MB", some "B", some "R", some "F"] : List (Option String))) ∧
    (∀ a b a2 b2 : Option String, a = a2 → b = b2 →
      classify_journal a b = classify_journal a2 b2) := by
  refine ⟨classify_mem, ?_, ?_⟩
  · intro q
    rcases map_range q with h | h | h | h | h <;> rw [h] <;> decide
  · intro a b a2 b2 h1 h2
    rw [h1, h2]

/-- Witness for C9 at concrete inputs. -/
theorem classify_total_deterministic_witness :
    classify_journal (some "Q3") (some "Q1") ∈
      (["MB", "B", "R", "F", "SEM_CLASSIFICACAO_JCR_SJR"] : List String) ∧
    classify_journal (some "-") none = classify_journal (some "-") none :=
  ⟨classify_total_deterministic.1 (some "Q3") (some "Q1"),
   classify_total_deterministic.2.2 (some "-") none (some "-") none rfl rfl⟩

/-- C3 counterexample: on a table with neither quartile columns nor a
Classificação column, load_data does not fail at all; it returns a table,
giving the row the sentinel classification. -/
theorem load_data_no_schema_error :
    load_data dfSemColunas
      = ⟨["Titulo", "Classificação"],
         [⟨[("Titulo", some "Revista Saude"),
            ("Classificação", some "SEM_CLASSIFICACAO_JCR_SJR")]⟩]⟩ := by
  decide

/-- C3 amended: on a well-formed table missing the quartile columns and
the Classificação column, load_data succeeds, appending a Classificação
column whose value in every row is the sentinel. -/
theorem load_data_missing_all (df : DataFrame) (hwf : df.WF)
    (hc : "Classificação" ∉ df.columns) (hj : "Quartil_JCR" ∉ df.columns)
    (hs : "SJR_Quartil" ∉ df.columns) :
    (load_data df).columns = df.columns ++ ["Classificação"] ∧
    ∀ r ∈ (load_data df).rows,
      r.get "Classificação" = some "SEM_CLASSIFICACAO_JCR_SJR" := by
  rw [load_data_of_not_mem df hc]
  refine ⟨rfl, ?_⟩
  intro r hr
  simp only [List.mem_map] at hr
  obtain ⟨r0, hr0, rfl⟩ := hr
  have hkeys := hwf r0 hr0
  have h1 : r0.get "Quartil_JCR" = none :=
    Row.get_eq_none _ _ (by rw [hkeys]; exact hj)
  have h2 : r0.get "SJR_Quartil" = none :=
    Row.get_eq_none _ _ (by rw [hkeys]; exact hs)
  have hk : "Classificação" ∉ r0.cells.map Prod.fst := by rw [hkeys]; exact hc
  calc (computeRow r0).get "Classificação"
      = some (classify_journal (r0.get "Quartil_JCR") (r0.get "SJR_Quartil")) :=
        Row.get_append_self _ _ _ hk
    _ = some "SEM_CLASSIFICACAO_JCR_SJR" := by rw [h1, h2]; rfl

/-- Witness for the amended C3 at a concrete schemaless table. -/
theorem load_data_missing_all_witness :
    (load_data dfSemColunas).columns = dfSemColunas.columns ++ ["Classificação"] ∧
    ∀ r ∈ (load_data dfSemColunas).rows,
      r.get "Classificação" = some "SEM_CLASSIFICACAO_JCR_SJR" :=
  load_data_missing_all dfSemColunas (by decide) (by decide) (by decide) (by decide)

/-- C4: when the Classificação column is present, load_data returns the
table completely unchanged: the stored column is carried verbatim with no
recomputation or validation. -/
theorem load_data_trusts_existing (df : DataFrame)
    (h : "Classificação" ∈ df.columns) : load_data df = df := by
  simp [load_data, h]

/-- Witness for C4 at a concrete table whose stored classification MB
disagrees with the F that classify_journal would compute from its
quartile cells. -/
theorem load_data_trusts_existing_witness :
    load_data dfClassificado = dfClassificado ∧
    (dfClassificado.rows.map fun r => r.get "Classificação") = [some "MB"] ∧
    classify_journal (some "Q4") (some "Q4") = "F" :=
  ⟨load_data_trusts_existing dfClassificado (by decide), by decide, by decide⟩

/-- C5: on a well-formed table lacking the Classificação column,
load_data appends exactly that column; every original column and row is
preserved unchanged, and each result row's Classificação equals
classify_journal of that row's Quartil_JCR and SJR_Quartil fields. -/
theorem load_data_backfills (df : DataFrame) (hwf : df.WF)
    (hc : "Classificação" ∉ df.columns) :
    (load_data df).columns = df.columns ++ ["Classificação"] ∧
    List.Forall₂ (fun r r2 : Row =>
      r2.cells = r.cells ++ [("Classificação",
        some (classify_journal (r.get "Quartil_JCR") (r.get "SJR_Quartil")))] ∧
      r2.get "Classificação"
        = some (classify_journal (r.get "Quartil_JCR") (r.get "SJR_Quartil")) ∧
      ∀ c ∈ df.columns, r2.get c = r.get c)
      df.rows (load_data df).rows := by
  rw [load_data_of_not_mem df hc]
  refine ⟨rfl, ?_⟩
  rw [List.forall₂_map_right_iff, List.forall₂_same]
  intro r hr
  have hk : "Classificação" ∉ r.cells.map Prod.fst := by
    rw [hwf r hr]; exact hc
  refine ⟨rfl, Row.get_append_self _ _ _ hk, ?_⟩
  intro c hcc
  have hne : c ≠ "Classificação" := fun he => hc (he ▸ hcc)
  exact Row.get_append_ne _ _ _ _ hne

/-- Witness for C5 at a concrete two-row table with quartile columns. -/
theorem load_data_backfills_witness :
    (load_data dfQuartis).columns = dfQuartis.columns ++ ["Classificação"] ∧
    List.Forall₂ (fun r r2 : Row =>
      r2.cells = r.cells ++ [("Classificação",
        some (classify_journal (r.get "Quartil_JCR") (r.get "SJR_Quartil")))] ∧
      r2.get "Classificação"
        = some (classify_journal (r.get "Quartil_JCR") (r.get "SJR_Quartil")) ∧
      ∀ c ∈ dfQuartis.columns, r2.get c = r.get c)
      dfQuartis.rows (load_data dfQuartis).rows :=
  load_data_backfills dfQuartis (by decide) (by decide)

/-- C6 counterexample: a stored Classificação value outside the five
tokens is surfaced verbatim by load_data, so not every value in the
returned Classificação column is one of the five tokens. -/
theorem load_data_tier_passthrough :
    ((load_data ⟨["Classificação"],
        [⟨[("Classificação", some "NAO_CLASSIFICADO")]⟩]⟩).rows.map
      fun r => r.get "Classificação") = [some "NAO_CLASSIFICADO"] ∧
    ("NAO_CLASSIFICADO" : String) ∉
      (["MB", "B", "R", "F", "SEM_CLASSIFICACAO_JCR_SJR"] : List String) := by
  decide

/-- C6 amended: every value of classify_journal is one of the five
tokens, and on a well-formed table lacking a stored Classificação column
every value load_data computes for that column is one of the five
tokens; a pre-existing column is passed through unvalidated. -/
theorem tier_values_in_range (df : DataFrame) (hwf : df.WF)
    (hc : "Classificação" ∉ df.columns) :
    (∀ jcr sjr : Option String,
      classify_journal jcr sjr ∈
        (["MB", "B", "R", "F", "SEM_CLASSIFICACAO_JCR_SJR"] : List String)) ∧
    ∀ r ∈ (load_data df).rows,
      ∃ t ∈ (["MB", "B", "R", "F", "SEM_CLASSIFICACAO_JCR_SJR"] : List String),
        r.get "Classificação" = some t := by
  refine ⟨classify_mem, ?_⟩
  rw [load_data_of_not_mem df hc]
  intro r hr
  simp only [List.mem_map] at hr
  obtain ⟨r0, hr0, rfl⟩ := hr
  have hk : "Classificação" ∉ r0.cells.map Prod.fst := by
    rw [hwf r0 hr0]; exact hc
  exact ⟨classify_journal (r0.get "Quartil_JCR") (r0.get "SJR_Quartil"),
    classify_mem _ _, Row.get_append_self _ _ _ hk⟩

/-- Witness for the amended C6 at a concrete mixed-case table. -/
theorem tier_values_in_range_witness :
    (∀ jcr sjr : Option String,
      classify_journal jcr sjr ∈
        (["MB", "B", "R", "F", "SEM_CLASSIFICACAO_JCR_SJR"] : List String)) ∧
    ∀ r ∈ (load_data dfQuartis2).rows,
      ∃ t ∈ (["MB", "B", "R", "F", "SEM_CLASSIFICACAO_JCR_SJR"] : List String),
        r.get "Classificação" = some t :=
  tier_values_in_range dfQuartis2 (by decide) (by decide)

/-- C10: on a well-formed table where the Classificação column and both
quartile columns are missing, load_data succeeds with no error: row.get
yields None for each missing field, so every row receives the sentinel
classification and all original cells are preserved. -/
theorem load_data_absent_quartis (df : DataFrame) (hwf : df.WF)
    (hc : "Classificação" ∉ df.columns) (hj : "Quartil_JCR" ∉ df.columns)
    (hs : "SJR_Quartil" ∉ df.columns) :
    load_data df = ⟨df.columns ++ ["Classificação"],
      df.rows.map fun r => ⟨r.cells ++
        [("Classificação", some "SEM_CLASSIFICACAO_JCR_SJR")]⟩⟩ := by
  rw [load_data_of_not_mem df hc]
  congr 1
  apply List.map_congr_left
  intro r hr
  have hkeys := hwf r hr
  have h1 : r.get "Quartil_JCR" = none :=
    Row.get_eq_none _ _ (by rw [hkeys]; exact hj)
  have h2 : r.get "SJR_Quartil" = none :=
    Row.get_eq_none _ _ (by rw [hkeys]; exact hs)
  simp only [computeRow, h1, h2]
  rfl

/-- Witness for C10 at a concrete two-row table without quartile
columns. -/
theorem load_data_absent_quartis_witness :
    load_data dfTituloIssn = ⟨dfTituloIssn.columns ++ ["Classificação"],
      dfTituloIssn.rows.map fun r => ⟨r.cells ++
        [("Classificação", some "SEM_CLASSIFICACAO_JCR_SJR")]⟩⟩ :=
  load_data_absent_quartis dfTituloIssn (by decide) (by decide) (by decide) (by decide)

end SaudeUece
